import Mathlib

/-!
Shallow embedding of src/server.js: a small Express server that opens a
per-request PostgreSQL connection through an authenticated SOCKS5 proxy.
Pure fragments of the JavaScript become Lean functions; the stateful parts
(the Proxy get trap around the tunnel socket, the event listener machinery,
the request handler with its cleanup, module start-up) become explicit state
passing over small state types. JavaScript undefined is modelled by Option;
a thrown exception or rejected promise by Except.
-/

/-- A JavaScript Error value; the source only ever handles plain errors
carrying a message. -/
inductive JsError
  | mk (message : String)
deriving DecidableEq

/-- The message carried by an error. -/
def JsError.message : JsError → String
  | JsError.mk m => m

/-- The process environment: a partial map from variable name to value. -/
abbrev Env := String → Option String

/-- JavaScript truthiness of an environment lookup, as used on src lines 14
and 32: false when the variable is unset or holds the empty string. -/
def envTruthy (env : Env) (v : String) : Bool :=
  match env v with
  | none => false
  | some s => !s.isEmpty

/-- The list of required environment variables (src lines 5-12). -/
def requiredEnvVars : List String :=
  ["DB_HOST", "DB_PORT", "PGDATABASE", "PGPASSWORD", "PGUSER", "FIXIE_SOCKS_HOST"]

/-- The variables found missing at start-up (src line 14). -/
def missingVars (env : Env) : List String :=
  requiredEnvVars.filter (fun v => !envTruthy env v)

/-- True for the characters the descriptor is split on, the regular
expression character class of colon and at-sign on src line 38. -/
def isSepChar (c : Char) : Bool := c == ':' || c == '@'

/-- Splitting a character list at every separator character, keeping empty
segments, exactly as the JavaScript split does. -/
def splitSepAux : List Char → List Char → List (List Char)
  | [], acc => [acc.reverse]
  | c :: cs, acc =>
    if isSepChar c then acc.reverse :: splitSepAux cs [] else splitSepAux cs (c :: acc)

/-- fixieParts (src line 38): split the descriptor on colon and at-sign and
drop the empty segments. -/
def fixieParts (url : String) : List String :=
  ((splitSepAux url.data []).filter (fun v => !v.isEmpty)).map List.asString

/-- The four credential variables destructured from fixieParts
(src line 41); in JavaScript a position past the end is undefined. -/
structure FixieCreds where
  fixieUser : Option String
  fixiePass : Option String
  fixieHost : Option String
  fixiePort : Option String
deriving DecidableEq

/-- The destructuring assignment on src line 41. -/
def parseFixie (url : String) : FixieCreds :=
  { fixieUser := (fixieParts url).get? 0
  , fixiePass := (fixieParts url).get? 1
  , fixieHost := (fixieParts url).get? 2
  , fixiePort := (fixieParts url).get? 3 }

/-- JavaScript parseInt with radix 10 on a string: skip leading whitespace,
read an optional sign, then the maximal run of leading decimal digits; no
digit at all yields NaN, modelled as none. -/
def jsParseInt (s : String) : Option Int :=
  let cs := s.data.dropWhile (fun c => c == ' ' || c == '\t' || c == '\n' || c == '\r')
  let signRest : Int × List Char :=
    match cs with
    | '-' :: r => (-1, r)
    | '+' :: r => (1, r)
    | r => (1, r)
  let ds := signRest.2.takeWhile Char.isDigit
  if ds.isEmpty then none
  else some (signRest.1 * Int.ofNat (ds.foldl (fun a c => a * 10 + (c.toNat - 48)) 0))

/-- parseInt applied to a possibly-undefined value: parseInt of undefined
coerces undefined to a non-numeric string, hence NaN (none). -/
def jsParseIntOpt : Option String → Option Int
  | none => none
  | some s => jsParseInt s

/-- A destination as in the SOCKS options and pgServer (src lines 30-33 and
63-66); the host may be undefined when DB_HOST is unset. -/
structure SocksDestination where
  host : Option String
  port : Option Int
deriving DecidableEq

/-- The target database endpoint (src lines 30-33): DB_HOST as is, and
DB_PORT parsed when truthy, 5432 otherwise. -/
def pgServer (env : Env) : SocksDestination :=
  { host := env "DB_HOST"
  , port := if envTruthy env "DB_PORT" then jsParseIntOpt (env "DB_PORT") else some 5432 }

/-- The proxy sub-object of the SOCKS options (src lines 54-61). -/
structure SocksProxyConfig where
  ipaddress : Option String
  port : Option Int
  type : Nat
  userId : Option String
  password : Option String
deriving DecidableEq

/-- The SOCKS client options object. The timeout field belongs to the
options schema of the socks library and is optional there; the object
literal in the source sets no timeout key, so a faithful construction leaves
it none. -/
structure SocksClientOptions where
  proxy : SocksProxyConfig
  command : String
  destination : SocksDestination
  timeout : Option Nat
deriving DecidableEq

/-- The SOCKS options built inside getProxiedPgClient (src lines 53-67) from
the parsed descriptor credentials and the target endpoint: SOCKS version 5,
connect command, and no timeout key. -/
def mkProxyOptions (creds : FixieCreds) (dest : SocksDestination) : SocksClientOptions :=
  { proxy :=
    { ipaddress := creds.fixieHost
    , port := jsParseIntOpt creds.fixiePort
    , type := 5
    , userId := creds.fixieUser
    , password := creds.fixiePass }
  , command := "connect"
  , destination := dest
  , timeout := none }

/-- The wrapping applied when the SOCKS connection itself fails
(src line 100): a fresh generic error with a fixed prefix. -/
def socksWrap (e : JsError) : JsError :=
  JsError.mk ("SOCKS proxy connection failed: " ++ e.message)

/-- The ssl sub-object of the pg connection configuration (src lines
106-108). -/
structure SslOptions where
  rejectUnauthorized : Bool
deriving DecidableEq

/-- The pg connection configuration built by getProxiedPgClient (src lines
103-109), apart from the adapted stream it carries: it sets
rejectUnauthorized to false unconditionally. getProxiedPgClient takes no
parameters, so no caller-supplied option can alter this. -/
structure PgConnectionConfig where
  ssl : SslOptions
deriving DecidableEq

/-- The concrete connection configuration of src lines 103-109. -/
def connectionConfig : PgConnectionConfig :=
  { ssl := { rejectUnauthorized := false } }

/-- Spec-side resolver, following the words of the spec for comparison with
the source: the descriptor must decompose into exactly four non-empty fields
user, password, host, port, the port being numeric; anything else is a
ConfigError. -/
inductive ConfigResult
  | ok (user password host : String) (port : Nat)
  | configError
deriving DecidableEq

/-- Spec-side configuration resolver, for comparison with parseFixie. -/
def configResolverSpec (url : String) : ConfigResult :=
  match fixieParts url with
  | [u, p, h, pt] =>
    if !pt.isEmpty && pt.data.all Char.isDigit then
      ConfigResult.ok u p h (pt.data.foldl (fun a c => a * 10 + (c.toNat - 48)) 0)
    else ConfigResult.configError
  | _ => ConfigResult.configError

/-- Spec-side shape of a timeout-classified TunnelError wrapping a cause,
for comparison with the wrapping the source actually performs. -/
def tunnelErrorTimeoutSpec (e : JsError) : JsError :=
  JsError.mk ("TunnelError timeout: " ++ e.message)

/-- Spec-side shape of a SessionError classification preserving the message
of the underlying cause, for comparison with the rejection the source
actually performs. -/
def sessionErrorSpec (e : JsError) : JsError :=
  JsError.mk ("SessionError: " ++ e.message)

/-- C1 counterexample: strict certificate validation is not in effect,
although getProxiedPgClient receives no request for relaxed validation; the
configuration it builds has rejectUnauthorized false. -/
theorem connectionConfig_not_strict :
    ¬ connectionConfig.ssl.rejectUnauthorized = true := by
  decide

/-- C1 amended: relaxed transport-encryption certificate validation is
hard-coded: the session-open operation accepts no validation option and
always builds its connection configuration with rejectUnauthorized false. -/
theorem connectionConfig_relaxed_hardcoded :
    connectionConfig.ssl.rejectUnauthorized = false :=
  rfl

/-- C2 counterexample: a descriptor with three fields is rejected by the
spec-side resolver, yet the source parse still produces a credentials record
with an undefined port and the SOCKS options are built from it with a NaN
port; no error is raised anywhere. -/
theorem parseFixie_malformed_produces_creds :
    configResolverSpec "user:pass@host" = ConfigResult.configError ∧
    parseFixie "user:pass@host" =
      { fixieUser := some "user", fixiePass := some "pass"
      , fixieHost := some "host", fixiePort := none } ∧
    (mkProxyOptions (parseFixie "user:pass@host")
      { host := some "db.example.com", port := some 5432 }).proxy.port = none := by
  refine ⟨by decide, by decide, by decide⟩

/-- C2 amended: the source parsing operation never fails: for every
descriptor it produces a credentials record holding the first four non-empty
segments, the port field being present exactly when at least four such
segments exist; there is no ConfigError in the code. -/
theorem parseFixie_never_fails (url : String) :
    ((parseFixie url).fixiePort = none ↔ (fixieParts url).length < 4) ∧
    (parseFixie url).fixieUser = (fixieParts url).get? 0 := by
  constructor
  · show (fixieParts url).get? 3 = none ↔ (fixieParts url).length < 4
    rw [List.get?_eq_none]
    omega
  · rfl

/-- C3 counterexample: at a concrete configuration the options the source
hands to tunnel establishment carry no timeout bound, and a handshake
failure is wrapped as a generic error, not as a timeout-classified
TunnelError. -/
theorem tunnel_options_no_timeout_cex :
    (mkProxyOptions (parseFixie "user:pass@proxy.example.com:1080")
      { host := some "db.example.com", port := some 5432 }).timeout = none ∧
    socksWrap (JsError.mk "connection timed out") ≠
      tunnelErrorTimeoutSpec (JsError.mk "connection timed out") := by
  refine ⟨rfl, by decide⟩

/-- C3 amended: the source enforces no connect timeout of its own: for every
configuration the SOCKS options it builds contain no timeout bound, so any
bound comes from the proxy library defaults outside this code, and every
tunnel failure is reported as a generic error with a fixed prefix, never as
a timeout-classified TunnelError. -/
theorem tunnel_no_self_timeout (creds : FixieCreds) (dest : SocksDestination) (e : JsError) :
    (mkProxyOptions creds dest).timeout = none ∧
    socksWrap e = JsError.mk ("SOCKS proxy connection failed: " ++ e.message) :=
  ⟨rfl, rfl⟩

/-- Which behaviour the Proxy get trap (src lines 74-96) gives a resolved
member of the wrapped socket. -/
inductive TrapBehavior
  | connectStub
  | oncePatched
  | passthrough
deriving DecidableEq

/-- The get trap itself: isFn tells whether the member of the underlying
socket at a given name is a function, the typeof test of the source. Only
the connect member and the once member are intercepted; every other access
falls through to Reflect.get on the target. -/
def getTrap (isFn : String → Bool) (prop : String) : TrapBehavior :=
  if prop = "connect" ∧ isFn prop = true then TrapBehavior.connectStub
  else if prop = "once" ∧ isFn prop = true then TrapBehavior.oncePatched
  else TrapBehavior.passthrough

/-- The underlying tunnel socket, reduced to what the adapter claims are
about: whether it is connected, how many connect attempts were made on it,
and whether it was destroyed. -/
structure LowSocket where
  connected : Bool
  connectAttempts : Nat
  destroyed : Bool
deriving DecidableEq

/-- A real connect call on the underlying socket: one more connect attempt.
Returned value first (node sockets return the socket itself), socket state
second. -/
def lowConnect (s : LowSocket) : LowSocket × LowSocket :=
  let s2 := { s with connectAttempts := s.connectAttempts + 1, connected := true }
  (s2, s2)

/-- The stub the trap substitutes for connect (src line 78): a function that
returns the target itself and does nothing. Returned value first, socket
state after the call second. -/
def stubConnect (s : LowSocket) : LowSocket × LowSocket := (s, s)

/-- The event machinery state of the wrapped socket together with the
cooperative scheduler: persistent listeners registered through on, one-shot
listeners registered through once, the setImmediate queue, and the log of
listeners invoked so far, in order. Listeners are identified by numbers. -/
structure EvState where
  onL : List (String × Nat)
  onceL : List (String × Nat)
  immediates : List Nat
  invoked : List Nat
deriving DecidableEq

/-- Registration of a persistent listener on the underlying socket. -/
def socketOn (ev : String) (l : Nat) (s : EvState) : EvState :=
  { s with onL := s.onL ++ [(ev, l)] }

/-- Registration of a one-shot listener on the underlying socket. -/
def socketOnce (ev : String) (l : Nat) (s : EvState) : EvState :=
  { s with onceL := s.onceL ++ [(ev, l)] }

/-- setImmediate: schedule a listener for the next turn of the cooperative
scheduler; nothing is invoked now. -/
def jsSetImmediate (l : Nat) (s : EvState) : EvState :=
  { s with immediates := s.immediates ++ [l] }

/-- The patched once the trap returns (src lines 83-92): a subscription for
the connect event is turned into a setImmediate of the listener, every other
subscription goes to the underlying once. -/
def adapterOnce (ev : String) (l : Nat) (s : EvState) : EvState :=
  if ev = "connect" then jsSetImmediate l s else socketOnce ev l s

/-- Emission of an event by the underlying socket: every matching persistent
listener fires, every matching one-shot listener fires and is removed. -/
def emit (e : String) (s : EvState) : EvState :=
  { s with
    invoked := s.invoked ++
      (((s.onL.filter (fun p => p.1 == e)).map Prod.snd) ++
        ((s.onceL.filter (fun p => p.1 == e)).map Prod.snd))
  , onceL := s.onceL.filter (fun p => !(p.1 == e)) }

/-- Running one scheduler turn over the immediate queue: every scheduled
listener is invoked once and the queue empties. -/
def runImmediates (s : EvState) : EvState :=
  { s with invoked := s.invoked ++ s.immediates, immediates := [] }

/-- The socket emitting a sequence of events, in order. -/
def runEvents : List String → EvState → EvState
  | [], s => s
  | e :: evs, s => runEvents evs (emit e s)

/-- A listener is registered, among persistent and one-shot listeners, only
under the connect event. -/
def connectOnlyReg (l : Nat) (s : EvState) : Prop :=
  (∀ p ∈ s.onL, p.2 = l → p.1 = "connect") ∧
  (∀ p ∈ s.onceL, p.2 = l → p.1 = "connect")

lemma emit_preserves_not_invoked (l : Nat) (e : String) (s : EvState)
    (hreg : connectOnlyReg l s) (hinv : l ∉ s.invoked) (he : e ≠ "connect") :
    connectOnlyReg l (emit e s) ∧ l ∉ (emit e s).invoked := by
  constructor
  · constructor
    · exact hreg.1
    · intro p hp hpl
      have hp2 : p ∈ s.onceL := List.mem_of_mem_filter hp
      exact hreg.2 p hp2 hpl
  · intro hmem
    rcases List.mem_append.mp hmem with h1 | h2
    · exact hinv h1
    rcases List.mem_append.mp h2 with h3 | h4
    · rcases List.mem_map.mp h3 with ⟨p, hp, hpl⟩
      have hpe : p.1 = e := by
        have := (List.mem_filter.mp hp).2
        exact eq_of_beq this
      have := hreg.1 p (List.mem_filter.mp hp).1 hpl
      exact he (by rw [← hpe, this])
    · rcases List.mem_map.mp h4 with ⟨p, hp, hpl⟩
      have hpe : p.1 = e := by
        have := (List.mem_filter.mp hp).2
        exact eq_of_beq this
      have := hreg.2 p (List.mem_filter.mp hp).1 hpl
      exact he (by rw [← hpe, this])

lemma runEvents_not_invoked (l : Nat) (evs : List String) :
    ∀ s : EvState, connectOnlyReg l s → l ∉ s.invoked → "connect" ∉ evs →
      l ∉ (runEvents evs s).invoked := by
  induction evs with
  | nil => intro s _ h _; exact h
  | cons e evs ih =>
    intro s hreg hinv hevs
    have he : e ≠ "connect" := by
      intro h
      exact hevs (by rw [← h]; exact List.mem_cons_self e evs)
    have h2 := emit_preserves_not_invoked l e s hreg hinv he
    exact ih (emit e s) h2.1 h2.2 (fun h => hevs (List.mem_cons_of_mem e h))

/-- The row sequence a query returns: rows in server order, each a mapping
of column name to value. -/
abbrev Rows := List (List (String × String))

/-- How the session-open attempt of a request can go (src lines 48-123):
the SOCKS connection itself fails before any stream exists, the pg connect
over the established stream fails, or the client comes up connected. -/
inductive OpenOutcome
  | socksFail (e : JsError)
  | pgConnectFail (e : JsError)
  | opened
deriving DecidableEq

/-- How the single query of a request can go. -/
inductive QueryOutcome
  | fail (e : JsError)
  | ok (rows : Rows)
deriving DecidableEq

/-- The release actions a request can perform on its resources. -/
inductive Cleanup
  | destroyStream
  | endClient
deriving DecidableEq

/-- The synchronous actions of the client connect callback. -/
inductive CallbackAct
  | logPgError
  | destroyStream
deriving DecidableEq

/-- The client.connect callback (src lines 113-121): on an error it logs,
destroys the stream and only then rejects with that very error; on success
it resolves with the client. First component: the actions run, in order,
before the promise settles; second component: how the promise settles. -/
def connectCallback : Option JsError → List CallbackAct × Except JsError Unit
  | some e => ([CallbackAct.logPgError, CallbackAct.destroyStream], Except.error e)
  | none => ([], Except.ok ())

/-- The JSON body and code of the success response (src lines 146-150);
data holds the row list exactly as returned. -/
structure HttpResponse where
  statusCode : Nat
  status : String
  message : String
  data : Option Rows
  details : Option String
deriving DecidableEq

/-- The success response of src lines 146-150. -/
def successResponse (rows : Rows) : HttpResponse :=
  { statusCode := 200
  , status := "success"
  , message := "Database query executed successfully via SOCKS proxy."
  , data := some rows
  , details := none }

/-- The error response of src lines 154-158. -/
def errorResponse (e : JsError) : HttpResponse :=
  { statusCode := 500
  , status := "error"
  , message := "Failed to execute database query."
  , data := none
  , details := some e.message }

/-- Whether the open attempt got past SOCKS connection establishment, that
is, whether a tunnel stream exists (src line 69 succeeded). -/
def streamEstablished : OpenOutcome → Bool
  | OpenOutcome.socksFail _ => false
  | _ => true

/-- The query request handler (src lines 134-171) as a function of the two
outcomes, returning the response sent and the release actions performed
during the request, in order. When the SOCKS connection fails no stream
exists and client was never assigned, so the finally block does nothing;
when the pg connect fails the stream was already destroyed inside
getProxiedPgClient and client is still unassigned in the handler; on both
remaining paths the finally block ends the client, which also destroys the
underlying stream. -/
def queryHandler (o : OpenOutcome) (q : QueryOutcome) : HttpResponse × List Cleanup :=
  match o with
  | OpenOutcome.socksFail e => (errorResponse (socksWrap e), [])
  | OpenOutcome.pgConnectFail e => (errorResponse e, [Cleanup.destroyStream])
  | OpenOutcome.opened =>
    match q with
    | QueryOutcome.fail e => (errorResponse e, [Cleanup.endClient])
    | QueryOutcome.ok rows => (successResponse rows, [Cleanup.endClient])

/-- A release action that frees the tunnel stream is present: either a
direct destruction of the stream or an end of the client, which destroys the
stream as well. -/
def releasesStream (cs : List Cleanup) : Bool :=
  cs.contains Cleanup.destroyStream || cs.contains Cleanup.endClient

/-- The start-up steps that matter for the start-up claims. -/
inductive StartupStep
  | logFatal (vars : List String)
  | listen
deriving DecidableEq

/-- A thrown JavaScript exception. -/
inductive JsException
  | typeError (message : String)
deriving DecidableEq

/-- The message of the TypeError raised by calling split on undefined. -/
def splitUndefinedMsg : String :=
  "Cannot read properties of undefined (reading split)"

/-- Module top-level execution (src lines 5-177) restricted to the steps the
start-up claims are about: the missing-variable check only logs, there is no
exit call, so execution continues; then line 38 calls split on the
FIXIE_SOCKS_HOST value, which throws a TypeError when the variable is
undefined; only when no exception is thrown does execution reach app.listen
on line 174. -/
def startup (env : Env) : List StartupStep × Except JsException Unit :=
  let mv := missingVars env
  let logs := if mv.isEmpty then ([] : List StartupStep) else [StartupStep.logFatal mv]
  match env "FIXIE_SOCKS_HOST" with
  | none => (logs, Except.error (JsException.typeError splitUndefinedMsg))
  | some _ => (logs ++ [StartupStep.listen], Except.ok ())

/-- C4: on every exit path of the query handler on which the tunnel stream
came into existence — pg connect failure, query failure, query success — a
release of the stream appears among the cleanup actions of the request
(either a direct stream destruction or a client end, which destroys the
stream), so no tunnel stream or session outlives the request. -/
theorem queryHandler_always_releases (o : OpenOutcome) (q : QueryOutcome)
    (h : streamEstablished o = true) :
    releasesStream (queryHandler o q).2 = true := by
  cases o with
  | socksFail e => simp [streamEstablished] at h
  | pgConnectFail e => cases q <;> rfl
  | opened => cases q <;> rfl

/-- The release guarantee at a concrete request on which the tunnel came up
and the pg connect then failed. -/
theorem queryHandler_always_releases_witness :
    streamEstablished (OpenOutcome.pgConnectFail (JsError.mk "auth failed")) = true ∧
    releasesStream (queryHandler (OpenOutcome.pgConnectFail (JsError.mk "auth failed"))
      (QueryOutcome.ok [])).2 = true := by
  refine ⟨rfl, ?_⟩
  exact queryHandler_always_releases _ _ rfl

/-- C5: a listener subscribed through the patched once to the connect
notification of the already-connected stream is not invoked synchronously
during the subscription call, and once the scheduler runs the immediate
queue it has been invoked exactly once. -/
theorem adapterOnce_connect_async_exactly_once (l : Nat) (s : EvState)
    (h1 : l ∉ s.invoked) (h2 : l ∉ s.immediates) :
    (adapterOnce "connect" l s).invoked = s.invoked ∧
    (runImmediates (adapterOnce "connect" l s)).invoked.count l = 1 := by
  have ha : adapterOnce "connect" l s = jsSetImmediate l s := if_pos rfl
  rw [ha]
  constructor
  · rfl
  · show (s.invoked ++ (s.immediates ++ [l])).count l = 1
    rw [List.count_append, List.count_append]
    rw [List.count_eq_zero_of_not_mem h1, List.count_eq_zero_of_not_mem h2]
    simp

/-- The exactly-once asynchronous delivery at a concrete fresh listener and
empty scheduler state. -/
theorem adapterOnce_connect_async_exactly_once_witness :
    (0 ∉ (EvState.mk [] [] [] []).invoked) ∧ (0 ∉ (EvState.mk [] [] [] []).immediates) ∧
    ((adapterOnce "connect" 0 (EvState.mk [] [] [] [])).invoked =
        (EvState.mk [] [] [] []).invoked ∧
      (runImmediates (adapterOnce "connect" 0 (EvState.mk [] [] [] []))).invoked.count 0 = 1) := by
  refine ⟨by decide, by decide, ?_⟩
  exact adapterOnce_connect_async_exactly_once 0 (EvState.mk [] [] [] [])
    (by decide) (by decide)

/-- C6: resolving connect through the trap on the already-connected socket
yields the stub, and calling the stub returns the target itself immediately,
leaves the socket unchanged and makes no second connect attempt on the
underlying socket. -/
theorem adapter_connect_noop (isFn : String → Bool) (s : LowSocket)
    (hf : isFn "connect" = true) (hc : s.connected = true) :
    getTrap isFn "connect" = TrapBehavior.connectStub ∧
    (stubConnect s).1 = s ∧
    (stubConnect s).2.connectAttempts = s.connectAttempts := by
  refine ⟨?_, rfl, rfl⟩
  unfold getTrap
  rw [if_pos ⟨rfl, hf⟩]

/-- The connect no-op at a concrete connected socket. -/
theorem adapter_connect_noop_witness :
    ((fun _ : String => true) "connect" = true) ∧
    ((LowSocket.mk true 1 false).connected = true) ∧
    (getTrap (fun _ : String => true) "connect" = TrapBehavior.connectStub ∧
      (stubConnect (LowSocket.mk true 1 false)).1 = LowSocket.mk true 1 false ∧
      (stubConnect (LowSocket.mk true 1 false)).2.connectAttempts =
        (LowSocket.mk true 1 false).connectAttempts) := by
  refine ⟨rfl, rfl, ?_⟩
  exact adapter_connect_noop (fun _ => true) (LowSocket.mk true 1 false) rfl rfl

/-- C7 counterexample: at a concrete connect failure the promise is rejected
with the original error unchanged, and that error is not the SessionError
classification the claim requires, so no SessionError wrapping happens. -/
theorem connect_failure_not_session_error :
    (connectCallback (some (JsError.mk "password authentication failed"))).2 =
      Except.error (JsError.mk "password authentication failed") ∧
    JsError.mk "password authentication failed" ≠
      sessionErrorSpec (JsError.mk "password authentication failed") := by
  refine ⟨rfl, by decide⟩

/-- C7 amended: on every failing connect the callback destroys the stream
before the promise is rejected, and the rejection carries the original cause
itself with its message preserved, without any SessionError wrapper. -/
theorem connect_failure_destroys_then_rejects_raw (e : JsError) :
    (connectCallback (some e)).1 = [CallbackAct.logPgError, CallbackAct.destroyStream] ∧
    ∃ e2, (connectCallback (some e)).2 = Except.error e2 ∧ e2.message = e.message :=
  ⟨rfl, ⟨e, rfl, rfl⟩⟩

/-- C8: every outcome of a request maps to exactly one of two response
shapes: the 200 success JSON carrying the row list exactly as returned, or
the 500 error JSON with status error and a details message. -/
theorem queryHandler_response_shapes (o : OpenOutcome) (q : QueryOutcome) :
    (∃ rows, o = OpenOutcome.opened ∧ q = QueryOutcome.ok rows ∧
      (queryHandler o q).1 = successResponse rows ∧
      (queryHandler o q).1.statusCode = 200 ∧ (queryHandler o q).1.status = "success" ∧
      (queryHandler o q).1.data = some rows) ∨
    ((queryHandler o q).1.statusCode = 500 ∧ (queryHandler o q).1.status = "error" ∧
      (queryHandler o q).1.data = none ∧ ∃ d, (queryHandler o q).1.details = some d) := by
  cases o with
  | socksFail e => exact Or.inr ⟨rfl, rfl, rfl, ⟨(socksWrap e).message, rfl⟩⟩
  | pgConnectFail e => exact Or.inr ⟨rfl, rfl, rfl, ⟨e.message, rfl⟩⟩
  | opened =>
    cases q with
    | fail e => exact Or.inr ⟨rfl, rfl, rfl, ⟨e.message, rfl⟩⟩
    | ok rows => exact Or.inl ⟨rows, rfl, rfl, rfl, rfl, rfl, rfl⟩

/-- C9: the trap leaves the persistent subscription method untouched, and a
listener registered through it for the connect event is never invoked over
any further behaviour of the stream in which no connect event is emitted,
which for the already-connected socket is every further behaviour. -/
theorem on_connect_listener_never_fires (isFn : String → Bool) (l : Nat) (s : EvState)
    (evs : List String)
    (hinv : l ∉ s.invoked)
    (hon : ∀ p ∈ s.onL, p.2 ≠ l)
    (honce : ∀ p ∈ s.onceL, p.2 ≠ l)
    (hevs : "connect" ∉ evs) :
    getTrap isFn "on" = TrapBehavior.passthrough ∧
    l ∉ (runEvents evs (socketOn "connect" l s)).invoked := by
  constructor
  · have hn1 : ¬(("on" : String) = "connect" ∧ isFn "on" = true) :=
      fun hx => absurd hx.1 (by decide)
    have hn2 : ¬(("on" : String) = "once" ∧ isFn "on" = true) :=
      fun hx => absurd hx.1 (by decide)
    unfold getTrap
    rw [if_neg hn1, if_neg hn2]
  · have hreg : connectOnlyReg l (socketOn "connect" l s) := by
      constructor
      · intro p hp hpl
        have hp2 : p ∈ s.onL ++ [("connect", l)] := hp
        rcases List.mem_append.mp hp2 with hx | hx
        · exact absurd hpl (hon p hx)
        · have h3 : p = ("connect", l) := List.mem_singleton.mp hx
          rw [h3]
      · intro p hp hpl
        exact absurd hpl (honce p hp)
    exact runEvents_not_invoked l evs (socketOn "connect" l s) hreg hinv hevs

/-- The persistent connect listener staying silent at a concrete state: a
fresh listener, the empty listener state, and two later events. -/
theorem on_connect_listener_never_fires_witness :
    (7 ∉ (EvState.mk [] [] [] []).invoked) ∧
    ("connect" ∉ (["data", "close"] : List String)) ∧
    (getTrap (fun _ : String => true) "on" = TrapBehavior.passthrough ∧
      7 ∉ (runEvents ["data", "close"] (socketOn "connect" 7 (EvState.mk [] [] [] []))).invoked) := by
  refine ⟨by decide, by decide, ?_⟩
  exact on_connect_listener_never_fires (fun _ => true) 7 (EvState.mk [] [] [] [])
    ["data", "close"] (by decide)
    (fun p hp => absurd hp (List.not_mem_nil p))
    (fun p hp => absurd hp (List.not_mem_nil p))
    (by decide)

/-- C10: when FIXIE_SOCKS_HOST is unset, start-up logs the fatal message
listing the variable, does not exit, then the split of the undefined
descriptor throws a TypeError, and the listen step is never reached. -/
theorem startup_missing_fixie_crashes (env : Env)
    (h : env "FIXIE_SOCKS_HOST" = none) :
    "FIXIE_SOCKS_HOST" ∈ missingVars env ∧
    (startup env).1 = [StartupStep.logFatal (missingVars env)] ∧
    (startup env).2 = Except.error (JsException.typeError splitUndefinedMsg) ∧
    StartupStep.listen ∉ (startup env).1 := by
  have ht : envTruthy env "FIXIE_SOCKS_HOST" = false := by
    unfold envTruthy
    rw [h]
  have hm : "FIXIE_SOCKS_HOST" ∈ missingVars env := by
    apply List.mem_filter.mpr
    constructor
    · show "FIXIE_SOCKS_HOST" ∈ requiredEnvVars
      decide
    · rw [ht]
      rfl
  have hnil : missingVars env ≠ [] := by
    intro hx
    rw [hx] at hm
    exact List.not_mem_nil _ hm
  have hemp : (missingVars env).isEmpty = false := by
    cases hml : missingVars env with
    | nil => exact absurd hml hnil
    | cons a as => rfl
  have hs : startup env =
      ([StartupStep.logFatal (missingVars env)],
        Except.error (JsException.typeError splitUndefinedMsg)) := by
    unfold startup
    rw [h]
    simp [hemp]
  refine ⟨hm, by rw [hs], by rw [hs], ?_⟩
  rw [hs]
  simp

/-- The start-up crash at the concrete empty environment. -/
theorem startup_missing_fixie_crashes_witness :
    ((fun _ : String => (none : Option String)) "FIXIE_SOCKS_HOST" = none) ∧
    ("FIXIE_SOCKS_HOST" ∈ missingVars (fun _ => none) ∧
      (startup (fun _ => none)).1 = [StartupStep.logFatal (missingVars (fun _ => none))] ∧
      (startup (fun _ => none)).2 = Except.error (JsException.typeError splitUndefinedMsg) ∧
      StartupStep.listen ∉ (startup (fun _ => none)).1) := by
  refine ⟨rfl, ?_⟩
  exact startup_missing_fixie_crashes (fun _ => none) rfl
